import Mathlib

/-!
Verification of the hackaru-timeular orientation router and remote task
client, shallowly embedded from `hackaru_timeular/hackaru_timeular.py`.

HTTP calls and the interactive description prompt are modelled by an
oracle (`HttpEnv`); each Python function becomes a Lean function from the
current state to a result record holding the new state, the exception
that propagated (if any), and the trace of observable effects, in order.
-/

namespace HackaruTimeular

/-- A task record as returned by the Hackaru service (`resp.json()`);
only its `id` field is ever read back (by `stop_current_task`). -/
structure TaskRec where
  id : Int
deriving DecidableEq, Repr

/-- The `hackaru-task` node of the yamale config schema:
`name: str(required=False)`, `id: int()`, `description: str(required=False)`. -/
structure YamlTask where
  name : Option String
  id : Int
  description : Option String
deriving DecidableEq, Repr

/-- The `task-mapping` node of the yamale config schema:
`side: int(min=1, max=9)`, `task: include('hackaru-task')`. -/
structure YamlMapping where
  side : Int
  task : YamlTask
deriving DecidableEq, Repr

/-- The value constraint on `side` in `CONFIG_SCHEMA`: yamale
`int(min=1, max=9)`, both bounds inclusive. -/
def sideConstraintValid (side : Int) : Bool :=
  decide (1 ≤ side) && decide (side ≤ 9)

/-- Validation of one `mapping` list element against `CONFIG_SCHEMA`:
the field types are enforced by `YamlMapping`; the one value constraint
is the `min=1, max=9` range on `side`. -/
def mappingEntryValid (m : YamlMapping) : Bool :=
  sideConstraintValid m.side

/-- Validation of the whole `mapping` list: `mapping: list(include('task-mapping'))`. -/
def mappingValid (ms : List YamlMapping) : Bool :=
  ms.all mappingEntryValid

/-- The membership test `orientation in range(1, 9)` used by
`callback_with_state` (Python `range` excludes the upper bound). -/
def orientationInRange (n : Nat) : Bool :=
  decide (1 ≤ n) && decide (n ≤ 8)

/-- The slice of the loaded config the router and client read:
the face mapping, the `cli` flag and the activities endpoint. -/
structure Config where
  mapping : List YamlMapping
  cli : Bool
  task_endpoint : String
deriving DecidableEq, Repr

/-- The mutable application state (`State(RecordClass)`): the current
task and the config.  The HTTP session is modelled by `HttpEnv`. -/
structure AppState where
  current_task : Option TaskRec
  config : Config
deriving DecidableEq, Repr

/-- Observable effects of one router/client invocation, in program order. -/
inductive Effect where
  /-- Entering the `with state_lock:` block. -/
  | lockAcquired
  /-- `session.put(task_endpoint + "/" + str(id), ...)` issued by `stop_current_task`. -/
  | stopCall (taskId : Int)
  /-- `session.post(task_endpoint, ...)` issued by `start_task`,
  carrying the project id and the description put in the request body. -/
  | startCall (projectId : Int) (description : String)
  /-- `logger.error("There is no task assigned for side %i", side)`. -/
  | logNoTask (side : Nat)
  /-- `session.get(task_endpoint + "/working", ...)` issued at startup. -/
  | getWorking
deriving DecidableEq, Repr

/-- Whether an effect is a start call. -/
def Effect.isStart : Effect → Bool
  | .startCall _ _ => true
  | _ => false

/-- Whether an effect is a stop call. -/
def Effect.isStop : Effect → Bool
  | .stopCall _ => true
  | _ => false

/-- The remote HTTP effects of a trace, with logging and locking dropped. -/
def remoteEffects (effs : List Effect) : List Effect :=
  effs.filter fun e => e.isStart || e.isStop

/-- Python exceptions that can escape the embedded functions. -/
inductive PyErr where
  /-- `assert len(data) == 1` failing. -/
  | assertionError
  /-- A `requests` call raising (connection error and the like). -/
  | httpError
deriving DecidableEq, Repr

/-- Oracle for the external world during one or more invocations:
whether `session.put` and `session.post` return or raise, the JSON body a
successful POST returns, and the result of the interactive description
prompt (`prompt_for_description`). -/
structure HttpEnv where
  putOk : Bool
  postOk : Bool
  postResp : TaskRec
  promptResp : String
deriving DecidableEq, Repr

/-- Result of one embedded call: the state afterwards, the exception that
propagated out (if any), and the effect trace. -/
structure StepResult where
  state : AppState
  raised : Option PyErr
  effects : List Effect
deriving DecidableEq, Repr

/-- `stop_current_task(state)`: return immediately when no task is
current; otherwise issue the PUT, and only if it returned set
`state.current_task = None` — a raising PUT propagates before the clear. -/
def stop_current_task (putOk : Bool) (s : AppState) : StepResult :=
  match s.current_task with
  | none => ⟨s, none, []⟩
  | some t =>
      if putOk then
        ⟨{ s with current_task := none }, none, [.stopCall t.id]⟩
      else
        ⟨s, some .httpError, [.stopCall t.id]⟩

/-- The arguments `get_task` hands to `start_task`. -/
structure TaskArgs where
  project_id : Int
  description : String
deriving DecidableEq, Repr

/-- `get_task(state, orientation)`: the first mapping entry (in list
order) whose `side` equals the orientation, via `next(...)`; raising
`StopIteration` when no entry matches becomes `none`.  A missing
`description` defaults to the empty string (`task.get("description", "")`). -/
def get_task (config : Config) (orientation : Nat) : Option TaskArgs :=
  (config.mapping.find? fun m => m.side == (orientation : Int)).map fun m =>
    ⟨m.task.id, m.task.description.getD ""⟩

/-- The description written into the start request body:
`description or prompt_for_description(state.config["cli"])` — the empty
string is falsy, so it is replaced by the prompt's answer. -/
def resolveDescription (description prompt : String) : String :=
  if description = "" then prompt else description

/-- `start_task(state, project_id, description)`: resolve the
description, POST the new activity, and on return adopt `resp.json()` as
the current task; a raising POST propagates before the assignment. -/
def start_task (env : HttpEnv) (s : AppState)
    (project_id : Int) (description : String) : StepResult :=
  let desc := resolveDescription description env.promptResp
  if env.postOk then
    ⟨{ s with current_task := some env.postResp }, none, [.startCall project_id desc]⟩
  else
    ⟨s, some .httpError, [.startCall project_id desc]⟩

/-- `callback_with_state(state, sender, data)`: assert the payload is one
byte, then under the state lock stop the current task; an orientation
outside `range(1, 9)` stops there, otherwise look the face up in the
mapping and start its task, turning `StopIteration` into an error log. -/
def callback_with_state (env : HttpEnv) (s : AppState) (data : List Nat) : StepResult :=
  match data with
  | [orientation] =>
      if orientationInRange orientation = false then
        let r := stop_current_task env.putOk s
        ⟨r.state, r.raised, .lockAcquired :: r.effects⟩
      else
        let r := stop_current_task env.putOk s
        match r.raised with
        | some e => ⟨r.state, some e, .lockAcquired :: r.effects⟩
        | none =>
            match get_task r.state.config orientation with
            | none =>
                ⟨r.state, none, .lockAcquired :: (r.effects ++ [.logNoTask orientation])⟩
            | some t =>
                let r2 := start_task env r.state t.project_id t.description
                ⟨r2.state, r2.raised, .lockAcquired :: (r.effects ++ r2.effects)⟩
  | _ => ⟨s, some .assertionError, []⟩

/-- The startup reconciliation step of `main`: GET
`task_endpoint + "/working"` and adopt the JSON body as the current task
of the freshly built `State`. -/
def reconcile (config : Config) (workingResp : Option TaskRec) :
    AppState × List Effect :=
  ({ current_task := workingResp, config := config }, [.getWorking])

/-- Outcome of one `login` attempt: success, or one of the two failure
classes the spec distinguishes (both raise in the Python code: network
errors raise from `session.post`, 4xx/5xx raise from `raise_for_status`). -/
inductive LoginOutcome where
  | ok
  | transientFailure
  | badCredentials
deriving DecidableEq, Repr

/-- Whether a `login` attempt raises (tenacity retries on any exception). -/
def loginAttemptRaises : LoginOutcome → Bool
  | .ok => false
  | .transientFailure => true
  | .badCredentials => true

/-- The stop condition of the bare `@retry` decorator on `login`:
tenacity's default `stop_never` — never stop retrying. -/
def retryStop (_attemptNumber : Nat) : Bool :=
  false

/-- The wait of the bare `@retry` decorator on `login`: tenacity's
default `wait_none` — zero seconds between attempts, no backoff. -/
def retryWait (_attemptNumber : Nat) : Nat :=
  0

/-- The retry loop tenacity wraps around `login`, run for `fuel` steps
against an oracle giving each attempt's outcome: a non-raising attempt
returns, a raising one propagates only when the stop condition says so
and is retried otherwise; `none` means the loop is still running. -/
def loginRun (oracle : Nat → LoginOutcome) : Nat → Nat → Option LoginOutcome
  | _, 0 => none
  | attempt, fuel + 1 =>
      if loginAttemptRaises (oracle attempt) then
        if retryStop attempt then some (oracle attempt)
        else loginRun oracle (attempt + 1) fuel
      else some .ok

/-- An oracle under which every login attempt is rejected for bad credentials. -/
def badCredOracle : Nat → LoginOutcome :=
  fun _ => .badCredentials

/-- An oracle under which every login attempt succeeds. -/
def okOracle : Nat → LoginOutcome :=
  fun _ => .ok

/-! Concrete fixtures used by witnesses and counterexamples. -/

/-- A config with an empty face mapping. -/
def cfgEmpty : Config :=
  ⟨[], true, "https://hackaru.example/v1/activities"⟩

/-- A config mapping face 3 to project 7 with description "alpha", and a
second entry for the same face 3 mapping to project 8 with "beta". -/
def cfgDup : Config :=
  ⟨[⟨3, ⟨none, 7, some "alpha"⟩⟩, ⟨3, ⟨none, 8, some "beta"⟩⟩], true,
    "https://hackaru.example/v1/activities"⟩

/-- A config mapping face 3 to project 7 with an empty description. -/
def cfgEmptyDesc : Config :=
  ⟨[⟨3, ⟨none, 7, some ""⟩⟩], true, "https://hackaru.example/v1/activities"⟩

/-- An environment where every HTTP call returns; the POST answers with
task 99 and the interactive prompt answers "writing". -/
def envOk : HttpEnv :=
  ⟨true, true, ⟨99⟩, "writing"⟩

/-- An idle state over the duplicate-face config. -/
def stIdleDup : AppState :=
  ⟨none, cfgDup⟩

/-- A state with task 5 active over the empty config. -/
def stActive : AppState :=
  ⟨some ⟨5⟩, cfgEmpty⟩

/-! Helper lemmas shared by the claim theorems. -/

/-- Unfolding `callback_with_state` on a mapped in-range face when both
HTTP calls return: the current task (if any) is stopped, then the
mapping entry's task is started and adopted. -/
lemma callback_mapped (env : HttpEnv) (s : AppState) (f : Nat) (t : TaskArgs)
    (hr : orientationInRange f = true)
    (ht : get_task s.config f = some t)
    (hput : env.putOk = true) (hpost : env.postOk = true) :
    callback_with_state env s [f] =
      ⟨⟨some env.postResp, s.config⟩, none,
        .lockAcquired ::
          ((match s.current_task with
            | some t0 => [Effect.stopCall t0.id]
            | none => ([] : List Effect)) ++
           [Effect.startCall t.project_id
              (resolveDescription t.description env.promptResp)])⟩ := by
  cases hc : s.current_task with
  | none =>
      simp [callback_with_state, hr, stop_current_task, hc, ht, start_task, hpost]
  | some t0 =>
      simp [callback_with_state, hr, stop_current_task, hc, hput, ht, start_task, hpost]

/-- `List.find?` skips a prefix on which the predicate fails. -/
lemma find?_append_of_none {α : Type} (p : α → Bool) (pre l : List α)
    (h : pre.find? p = none) : (pre ++ l).find? p = l.find? p := by
  induction pre with
  | nil => rfl
  | cons a as ih =>
      rw [List.find?_cons] at h
      rw [List.cons_append, List.find?_cons]
      cases hpa : p a with
      | true => rw [hpa] at h; exact nomatch h
      | false => rw [hpa] at h; exact ih h

/-! The claims. -/

/-- C1 (counterexample): with task 5 active and the PUT raising,
`stop_current_task` issues the stop call and lets the exception
propagate, but the current task is still set afterwards — the clearing
is not unconditional. -/
theorem stop_raise_retains_current_task_cex :
    (stop_current_task false stActive).state.current_task = some ⟨5⟩ ∧
    (stop_current_task false stActive).raised = some .httpError ∧
    (stop_current_task false stActive).effects = [.stopCall 5] := by
  decide

/-- C1 (amended): `stop_current_task` clears the in-memory current task
whenever the PUT returns (`requests` does not raise on HTTP error
status, so error responses still clear); when the PUT raises, the
exception propagates before the assignment and the current task is
retained unchanged. -/
theorem stop_clears_iff_put_returns (s : AppState) :
    (stop_current_task true s).state.current_task = none ∧
    (stop_current_task false s).state.current_task = s.current_task := by
  cases hc : s.current_task <;> simp [stop_current_task, hc]

/-- C2 (counterexample): after 50 attempts all rejected for bad
credentials, `login` has neither stopped retrying nor propagated the
failure, and the bare `@retry` decorator's stop condition and wait at
attempt 50 are "never stop" and "no wait" — there is no backoff and no
exhaustion. -/
theorem login_retry_no_stop_no_backoff_cex :
    loginRun badCredOracle 0 50 = none ∧
    retryStop 50 = false ∧
    retryWait 50 = 0 := by
  decide

/-- C2 (amended): the bare tenacity `@retry` on `login` has no stop
condition and no wait between attempts, so `login` retries every raised
exception — bad credentials included — indefinitely and never propagates
a failure: the retry loop only ever returns on a successful attempt. -/
theorem login_retry_never_propagates :
    (∀ n, retryStop n = false ∧ retryWait n = 0) ∧
    ∀ (oracle : Nat → LoginOutcome) (k fuel : Nat),
      loginRun oracle k fuel = none ∨ loginRun oracle k fuel = some .ok := by
  refine ⟨fun n => ⟨rfl, rfl⟩, fun oracle k fuel => ?_⟩
  induction fuel generalizing k with
  | zero => exact Or.inl rfl
  | succ n ih =>
      rw [loginRun]
      cases hr : loginAttemptRaises (oracle k) with
      | true => simpa [retryStop] using ih (k + 1)
      | false => simp

/-- C3: the yamale schema accepts a mapping entry with `side: 9`
(`int(min=1, max=9)`, both bounds inclusive), although orientation 9 is
outside the `range(1, 9)` the callback accepts, so the claimed rejection
of faces outside 1..8 does not hold at side 9. -/
theorem schema_accepts_side_nine_bug :
    mappingEntryValid ⟨9, ⟨none, 7, none⟩⟩ = true ∧
    orientationInRange 9 = false := by
  decide

/-- C4: for a face that is 0 or above 8 (any byte value), the callback
never issues a start call, and issues a stop call exactly when a task
was active on arrival. -/
theorem invalid_face_stops_only (env : HttpEnv) (s : AppState) (f : Nat)
    (hf : f = 0 ∨ 8 < f) (hb : f ≤ 255) :
    ((callback_with_state env s [f]).effects.any Effect.isStart) = false ∧
    ((callback_with_state env s [f]).effects.any Effect.isStop) =
      s.current_task.isSome := by
  have hr : orientationInRange f = false := by
    rcases hf with h | h
    · subst h; decide
    · simp [orientationInRange]; omega
  cases hc : s.current_task with
  | none =>
      simp [callback_with_state, hr, stop_current_task, hc, Effect.isStart, Effect.isStop]
  | some t0 =>
      cases hput : env.putOk <;>
        simp [callback_with_state, hr, stop_current_task, hc, hput, Effect.isStart,
          Effect.isStop]

/-- C4 witness: face 9 with task 5 active. -/
theorem invalid_face_stops_only_witness :
    (9 = 0 ∨ 8 < 9) ∧ 9 ≤ 255 ∧
    (((callback_with_state envOk stActive [9]).effects.any Effect.isStart) = false ∧
     ((callback_with_state envOk stActive [9]).effects.any Effect.isStop) =
       stActive.current_task.isSome) :=
  ⟨Or.inr (by decide), by decide,
    invalid_face_stops_only envOk stActive 9 (Or.inr (by decide)) (by decide)⟩

/-- C5 (counterexample): face 3 is mapped to project 7 with an empty
description; when idle, the callback issues exactly one start call, but
it carries the prompt's answer "writing", not the mapping entry's empty
description. -/
theorem empty_description_prompt_cex :
    (callback_with_state envOk ⟨none, cfgEmptyDesc⟩ [3]).effects ≠
      [Effect.lockAcquired, Effect.startCall 7 ""] ∧
    (callback_with_state envOk ⟨none, cfgEmptyDesc⟩ [3]).effects =
      [Effect.lockAcquired, Effect.startCall 7 "writing"] := by
  decide

/-- C5 (amended): for an in-range face whose mapping lookup succeeds,
with the HTTP calls returning, the callback first issues a stop call
exactly when a task was active (so any stop precedes the start), then
issues exactly one start call carrying the entry's project id and the
entry's description when it is nonempty — an empty description is
replaced by the interactive prompt's answer; the POST's body becomes the
new current task. -/
theorem mapped_face_single_start (env : HttpEnv) (s : AppState) (f : Nat)
    (t : TaskArgs)
    (hr : orientationInRange f = true)
    (ht : get_task s.config f = some t)
    (hput : env.putOk = true) (hpost : env.postOk = true) :
    (callback_with_state env s [f]).effects =
      .lockAcquired ::
        ((match s.current_task with
          | some t0 => [Effect.stopCall t0.id]
          | none => ([] : List Effect)) ++
         [Effect.startCall t.project_id
            (resolveDescription t.description env.promptResp)]) ∧
    (callback_with_state env s [f]).state.current_task = some env.postResp ∧
    (callback_with_state env s [f]).raised = none := by
  rw [callback_mapped env s f t hr ht hput hpost]
  exact ⟨rfl, rfl, rfl⟩

/-- C5 witness: idle state, face 3 mapped to project 7, description "alpha". -/
theorem mapped_face_single_start_witness :
    orientationInRange 3 = true ∧
    get_task stIdleDup.config 3 = some ⟨7, "alpha"⟩ ∧
    envOk.putOk = true ∧ envOk.postOk = true ∧
    ((callback_with_state envOk stIdleDup [3]).effects =
       [Effect.lockAcquired, Effect.startCall 7 (resolveDescription "alpha" "writing")] ∧
     (callback_with_state envOk stIdleDup [3]).state.current_task = some ⟨99⟩ ∧
     (callback_with_state envOk stIdleDup [3]).raised = none) :=
  ⟨by decide, by decide, rfl, rfl,
    mapped_face_single_start envOk stIdleDup 3 ⟨7, "alpha"⟩ (by decide) (by decide) rfl rfl⟩

/-- C6: for an in-range face absent from the mapping, with the PUT
returning, the callback stops the current task exactly when one was
active, issues no start call, logs the "no task assigned" condition
instead of propagating it, and leaves no task active. -/
theorem unmapped_face_no_start (env : HttpEnv) (s : AppState) (f : Nat)
    (hr : orientationInRange f = true)
    (ht : get_task s.config f = none)
    (hput : env.putOk = true) :
    (callback_with_state env s [f]).effects =
      .lockAcquired ::
        ((match s.current_task with
          | some t0 => [Effect.stopCall t0.id]
          | none => ([] : List Effect)) ++
         [Effect.logNoTask f]) ∧
    (callback_with_state env s [f]).state.current_task = none ∧
    (callback_with_state env s [f]).raised = none := by
  cases hc : s.current_task with
  | none =>
      simp [callback_with_state, hr, stop_current_task, hc, ht]
  | some t0 =>
      simp [callback_with_state, hr, stop_current_task, hc, hput, ht]

/-- C6 witness: face 4 has no mapping entry; task 5 is active. -/
theorem unmapped_face_no_start_witness :
    orientationInRange 4 = true ∧
    get_task stActive.config 4 = none ∧
    envOk.putOk = true ∧
    ((callback_with_state envOk stActive [4]).effects =
       [Effect.lockAcquired, Effect.stopCall 5, Effect.logNoTask 4] ∧
     (callback_with_state envOk stActive [4]).state.current_task = none ∧
     (callback_with_state envOk stActive [4]).raised = none) :=
  ⟨by decide, by decide, rfl,
    unmapped_face_no_start envOk stActive 4 (by decide) (by decide) rfl⟩

/-- C7: with a task active and an in-range mapped face, two consecutive
callbacks for the same face produce exactly the four remote effects
stop, start, stop, start — the restart is not skipped on a repeated
same-face notification. -/
theorem same_face_twice_four_remote_effects (env : HttpEnv) (s : AppState)
    (f : Nat) (t : TaskArgs) (t0 : TaskRec)
    (hc : s.current_task = some t0)
    (hr : orientationInRange f = true)
    (ht : get_task s.config f = some t)
    (hput : env.putOk = true) (hpost : env.postOk = true) :
    remoteEffects ((callback_with_state env s [f]).effects ++
        (callback_with_state env (callback_with_state env s [f]).state [f]).effects) =
      [Effect.stopCall t0.id,
       Effect.startCall t.project_id (resolveDescription t.description env.promptResp),
       Effect.stopCall env.postResp.id,
       Effect.startCall t.project_id (resolveDescription t.description env.promptResp)] := by
  rw [callback_mapped env s f t hr ht hput hpost]
  rw [callback_mapped env ⟨some env.postResp, s.config⟩ f t hr ht hput hpost]
  simp [hc, remoteEffects, Effect.isStart, Effect.isStop]

/-- C7 witness: task 5 active, face 3 mapped to project 7, twice. -/
theorem same_face_twice_four_remote_effects_witness :
    (⟨some ⟨5⟩, cfgDup⟩ : AppState).current_task = some ⟨5⟩ ∧
    orientationInRange 3 = true ∧
    get_task (⟨some ⟨5⟩, cfgDup⟩ : AppState).config 3 = some ⟨7, "alpha"⟩ ∧
    remoteEffects ((callback_with_state envOk ⟨some ⟨5⟩, cfgDup⟩ [3]).effects ++
        (callback_with_state envOk
          (callback_with_state envOk ⟨some ⟨5⟩, cfgDup⟩ [3]).state [3]).effects) =
      [Effect.stopCall 5, Effect.startCall 7 (resolveDescription "alpha" "writing"),
       Effect.stopCall 99, Effect.startCall 7 (resolveDescription "alpha" "writing")] :=
  ⟨rfl, by decide, by decide,
    same_face_twice_four_remote_effects envOk ⟨some ⟨5⟩, cfgDup⟩ 3 ⟨7, "alpha"⟩ ⟨5⟩
      rfl (by decide) (by decide) rfl rfl⟩

/-- C8: startup reconciliation adopts whatever the `/working` query
returns as the in-memory current task, issuing the GET and nothing else
— in particular no start call; with the service reporting activity 42,
the current task afterwards is task 42. -/
theorem reconcile_adopts_working_task (config : Config) (resp : Option TaskRec) :
    (reconcile config resp).1.current_task = resp ∧
    (∀ e ∈ (reconcile config resp).2, e.isStart = false) ∧
    (reconcile config resp).2 = [.getWorking] ∧
    (reconcile config (some ⟨42⟩)).1.current_task = some ⟨42⟩ := by
  refine ⟨rfl, ?_, rfl, rfl⟩
  intro e he
  simp [reconcile] at he
  subst he
  rfl

/-- C9: a notification payload that is not exactly one byte fails the
assertion immediately: the callback raises `AssertionError` with an
empty effect trace — the state lock is never acquired, no stop or start
is issued — and the state is returned unchanged. -/
theorem bad_payload_asserts_before_lock (env : HttpEnv) (s : AppState)
    (data : List Nat) (h : data.length ≠ 1) :
    callback_with_state env s data = ⟨s, some .assertionError, []⟩ := by
  cases data with
  | nil => rfl
  | cons x xs =>
      cases xs with
      | nil => simp at h
      | cons y ys => rfl

/-- C9 witness: the empty payload. -/
theorem bad_payload_asserts_before_lock_witness :
    ([] : List Nat).length ≠ 1 ∧
    callback_with_state envOk stActive [] = ⟨stActive, some .assertionError, []⟩ :=
  ⟨by decide, bad_payload_asserts_before_lock envOk stActive [] (by decide)⟩

/-- C10: when the mapping holds several entries for the same face, the
lookup returns the first matching entry in list order, and a start
triggered for that face from the idle state carries that first entry's
project id and (resolved) description. -/
theorem duplicate_face_first_entry_wins (env : HttpEnv) (s : AppState)
    (f : Nat) (pre rest : List YamlMapping) (e : YamlMapping)
    (hm : s.config.mapping = pre ++ e :: rest)
    (hpre : ∀ e' ∈ pre, (e'.side == (f : Int)) = false)
    (he : e.side = (f : Int))
    (hidle : s.current_task = none)
    (hr : orientationInRange f = true)
    (hput : env.putOk = true) (hpost : env.postOk = true) :
    get_task s.config f = some ⟨e.task.id, e.task.description.getD ""⟩ ∧
    (callback_with_state env s [f]).effects =
      [Effect.lockAcquired,
       Effect.startCall e.task.id
         (resolveDescription (e.task.description.getD "") env.promptResp)] := by
  have hfind : (s.config.mapping.find? fun m => m.side == (f : Int)) = some e := by
    rw [hm,
      find?_append_of_none _ pre _
        (List.find?_eq_none.mpr fun x hx => by simp [hpre x hx]),
      List.find?_cons]
    simp [he]
  have ht : get_task s.config f = some ⟨e.task.id, e.task.description.getD ""⟩ := by
    rw [get_task, hfind]; rfl
  refine ⟨ht, ?_⟩
  rw [callback_mapped env s f ⟨e.task.id, e.task.description.getD ""⟩ hr ht hput hpost]
  simp [hidle]

/-- C10 witness: two entries for face 3 (projects 7 then 8); the lookup
and the start use the first, project 7. -/
theorem duplicate_face_first_entry_wins_witness :
    stIdleDup.config.mapping =
      [] ++ (⟨3, ⟨none, 7, some "alpha"⟩⟩ : YamlMapping) :: [⟨3, ⟨none, 8, some "beta"⟩⟩] ∧
    (get_task stIdleDup.config 3 = some ⟨7, "alpha"⟩ ∧
     (callback_with_state envOk stIdleDup [3]).effects =
       [Effect.lockAcquired, Effect.startCall 7 (resolveDescription "alpha" "writing")]) :=
  ⟨rfl,
    duplicate_face_first_entry_wins envOk stIdleDup 3 []
      [⟨3, ⟨none, 8, some "beta"⟩⟩] ⟨3, ⟨none, 7, some "alpha"⟩⟩
      rfl (by intro e' he'; exact absurd he' (List.not_mem_nil e'))
      rfl rfl (by decide) rfl rfl⟩

end HackaruTimeular
